import Mathlib

/-!
# The `null_data_source` read handler

A shallow embedding of `internal/provider/data_source.go`:

* `nullDataSource` — the schema table of the data source;
* `dataSourceRead` — the read handler, written as a function from the
  resource data it is handed to the diagnostics it returns and the resource
  data it leaves behind.

The handler talks to three things it does not define: the resource data of the
plugin SDK (`d.Get`, `d.Set`, `d.SetId`), `math/rand` (`rand.Int`) and `fmt`
(`Sprintf` with the verb `%d`).  They are modelled below, each in the smallest
form that still lets a write be rejected, a written map be read back without
its entries under `#` and `%`, a draw be any machine word and a number be
printed digit by digit.
-/

namespace NullProvider

/-! ## Values and schema -/

/-- A Go `map[string]interface{}` whose values are strings, kept as the list of
its entries. -/
abbrev StringMap := List (String × String)

/-- The dynamic values that travel through `d.Get` and `d.Set`. -/
inductive Value where
  | null : Value
  | str (s : String) : Value
  | map (m : StringMap) : Value
  deriving DecidableEq, Repr

/-- The two `schema.ValueType`s the data source declares. -/
inductive ValueType where
  | TypeString : ValueType
  | TypeMap : ValueType
  deriving DecidableEq, Repr

/-- The part of `schema.Schema` the data source fills in. -/
structure Schema where
  Type_ : ValueType
  Optional : Bool
  Computed : Bool
  deriving DecidableEq, Repr

/-- The `Schema` table of `nullDataSource`, in the order of the source. -/
def nullDataSource : List (String × Schema) :=
  [ ("inputs", ⟨ValueType.TypeMap, true, false⟩),
    ("outputs", ⟨ValueType.TypeMap, false, true⟩),
    ("random", ⟨ValueType.TypeString, false, true⟩),
    ("has_computed_default", ⟨ValueType.TypeString, true, true⟩),
    ("id", ⟨ValueType.TypeString, false, true⟩) ]

/-- The attribute names of the data source. -/
def fieldNames : List String := nullDataSource.map Prod.fst

/-- The zero value `d.Get` reports for an attribute that holds nothing. -/
def zeroValue : ValueType → Value
  | ValueType.TypeString => Value.str ""
  | ValueType.TypeMap => Value.map []

/-- The two keys the SDK keeps for itself in the flat encoding of a map: the
reader of written values leaves out the entries stored under `#` and `%`. -/
def reservedKey (k : String) : Bool := k = "#" || k = "%"

/-- What `d.Get` reads back of a value written through `d.Set`: a string as it
was written, a map without its entries under `#` and `%`. -/
def readBack : Value → Value
  | Value.map m => Value.map (m.filter (fun kv => !reservedKey kv.1))
  | v => v

/-! ## Resource data -/

/-- One call of `d.Set` or `d.SetId`, as the resource data saw it: the
attribute, the value offered, and the error it answered with (`none` when the
write was accepted). -/
structure WriteAttempt where
  key : String
  value : Value
  err : Option String
  deriving DecidableEq, Repr

/-- The `schema.ResourceData` handed to the read handler.

* `attrs` holds what the attributes that have a value read as (configuration
  and earlier writes alike); an attribute the underlying schema does not
  declare reads as `Value.null`;
* `id` is the resource identifier;
* `validate` is the host side of `d.Set`: asked about a key and a value it
  answers `some text` to reject the write with that error text, `none` to
  accept it.  It is left free, so the structure also has inhabitants no
  resource data of the SDK behaves like; `Realisable` below says what the SDK
  guarantees, and statements that some resource data exists ask for it;
* `log` records every write attempted so far, oldest first. -/
structure ResourceData where
  attrs : String → Option Value
  id : String
  validate : String → Value → Option String
  log : List WriteAttempt

namespace ResourceData

/-- The call `d.Get(key)`: the stored value, or the zero value of the attribute's type. -/
def Get (d : ResourceData) (key : String) : Value :=
  match d.attrs key with
  | some v => v
  | none =>
    match nullDataSource.lookup key with
    | some s => zeroValue s.Type_
    | none => Value.null

/-- The resource data after an accepted write of `value` to `key`: the
attribute now reads as `readBack value`. -/
def store (d : ResourceData) (key : String) (value : Value) : ResourceData :=
  { d with
      attrs := fun k => if k = key then some (readBack value) else d.attrs k,
      log := d.log ++ [⟨key, value, none⟩] }

/-- The resource data after a write of `value` to `key` rejected with the
error `e`: the attributes are as they were. -/
def refuse (d : ResourceData) (key : String) (value : Value) (e : String) : ResourceData :=
  { d with log := d.log ++ [⟨key, value, some e⟩] }

/-- The call `d.Set(key, value)`: the write is offered to the host; a rejected write
leaves the attributes as they were and returns the error, an accepted one
stores the value. -/
def Set (d : ResourceData) (key : String) (value : Value) : ResourceData × Option String :=
  match d.validate key value with
  | some e => (d.refuse key value e, some e)
  | none => (d.store key value, none)

/-- The call `d.SetId(v)`: it has no error result and does not go through `validate`. -/
def SetId (d : ResourceData) (v : String) : ResourceData :=
  { d with id := v, log := d.log ++ [⟨"id", Value.str v, none⟩] }

/-- The call `d.Id()`. -/
def Id (d : ResourceData) : String := d.id

end ResourceData

/-! ## Diagnostics -/

/-- The type `diag.Severity`. -/
inductive Severity where
  | Error : Severity
  | Warning : Severity
  deriving DecidableEq, Repr

/-- The type `diag.Diagnostic`, with the two fields `diag.Errorf` fills in. -/
structure Diagnostic where
  Severity : Severity
  Summary : String
  deriving DecidableEq, Repr

/-- The type `diag.Diagnostics`; Go's `nil` is the empty list. -/
abbrev Diagnostics := List Diagnostic

/-- The call `diag.Errorf(format, a...)` once the format has been expanded to `msg`. -/
def Errorf (msg : String) : Diagnostics := [⟨Severity.Error, msg⟩]

/-- The call `diags.HasError()`. -/
def HasError (ds : Diagnostics) : Bool := ds.any (fun x => x.Severity = Severity.Error)

/-! ## `rand.Int` and `%d` -/

/-- The call `rand.Int()` on a 64-bit platform: the generator's next word with the sign
bit cleared. -/
def randInt (word : Nat) : Int := ((word % 2 ^ 63 : Nat) : Int)

/-- The character of a decimal digit. -/
def digitChar (k : Nat) : Char :=
  match k with
  | 0 => '0' | 1 => '1' | 2 => '2' | 3 => '3' | 4 => '4'
  | 5 => '5' | 6 => '6' | 7 => '7' | 8 => '8' | _ => '9'

/-- The decimal digits of `n`, most significant first, written with at most
`fuel + 1` digits. -/
def natDigitsAux : Nat → Nat → List Char
  | 0, n => [digitChar (n % 10)]
  | fuel + 1, n =>
    if n < 10 then [digitChar n] else natDigitsAux fuel (n / 10) ++ [digitChar (n % 10)]

/-- The decimal digits of `n`. -/
def natDigits (n : Nat) : List Char := natDigitsAux n n

/-- The call `fmt.Sprintf("%d", i)`: a minus sign for a negative number, then the
digits of the magnitude. -/
def sprintfD (i : Int) : String :=
  if i < 0 then String.mk ('-' :: natDigits i.natAbs) else String.mk (natDigits i.natAbs)

/-! ## The read handler -/

/-- The read handler `dataSourceRead`.  `word` is what the process-wide
generator yields for this call; the result is the diagnostics returned and the
resource data as the call leaves it. -/
def dataSourceRead (word : Nat) (d : ResourceData) : Diagnostics × ResourceData :=
  let inputs := d.Get "inputs"
  match d.Set "outputs" inputs with
  | (d1, some err) => (Errorf ("error setting outputs: " ++ err), d1)
  | (d1, none) =>
    match d1.Set "random" (Value.str (sprintfD (randInt word))) with
    | (d2, some err) => (Errorf ("error setting random int: " ++ err), d2)
    | (d2, none) =>
      if d2.Get "has_computed_default" = Value.str "" then
        match d2.Set "has_computed_default" (Value.str "default") with
        | (d3, some err) => (Errorf ("error setting has_computed_default: " ++ err), d3)
        | (d3, none) => ([], d3.SetId "static")
      else
        ([], d2.SetId "static")

/-! ## Vocabulary of the specification -/

/-- The writes attempted during one call of the handler: what the log gained. -/
def attempts (word : Nat) (d : ResourceData) : List WriteAttempt :=
  (dataSourceRead word d).2.log.drop d.log.length

/-- Reading a run of characters as a decimal number, continuing from `acc`;
`none` at the first character that is not one of `0` to `9`. -/
def parseDecimalAux : List Char → Nat → Option Nat
  | [], acc => some acc
  | c :: cs, acc =>
    if c.isDigit then parseDecimalAux cs (acc * 10 + (c.toNat - '0'.toNat)) else none

/-- Parsing a string as a non-negative decimal integer, in the words of the
specification: a non-empty run of the digits `0` to `9`, read in base ten. -/
def parseDecimal (s : String) : Option Nat :=
  match s.data with
  | [] => none
  | c :: cs => parseDecimalAux (c :: cs) 0

/-- Whether `l` starts with the characters of `p`. -/
def beginsWith : List Char → List Char → Bool
  | _, [] => true
  | [], _ :: _ => false
  | c :: cs, p :: ps => c = p && beginsWith cs ps

/-- Whether the characters of `name` occur, in a row, somewhere in `l`. -/
def occursIn (name : List Char) : List Char → Bool
  | [] => name.isEmpty
  | c :: cs => beginsWith (c :: cs) name || occursIn name cs

/-- Whether the text `msg` contains `name`. -/
def mentions (msg name : String) : Bool := occursIn name.data msg.data

/-- The words with which the handler opens the error message for a failed
write of `field`. -/
def errorLabel (field : String) : String :=
  if field = "outputs" then "error setting outputs: "
  else if field = "random" then "error setting random int: "
  else "error setting has_computed_default: "

/-- The attributes the handler writes through `d.Set`. -/
def setFields : List String := ["outputs", "random", "has_computed_default"]

/-- A resource data that accepts every write and holds the given inputs and
`has_computed_default`. -/
def acceptAll (inputs : Option StringMap) (hcd : Option String) : ResourceData where
  attrs := fun k =>
    if k = "inputs" then inputs.map Value.map
    else if k = "has_computed_default" then hcd.map Value.str
    else none
  id := ""
  validate := fun _ _ => none
  log := []

/-- A resource data that rejects, with the text `text`, every write to the
attribute `field` and accepts every other write. -/
def rejecting (field text : String) (inputs : Option StringMap) (hcd : Option String) :
    ResourceData :=
  { acceptAll inputs hcd with validate := fun k _ => if k = field then some text else none }

/-- The resource data `d` rejects the writes to `field` and to no other
attribute. -/
def RejectsOnly (d : ResourceData) (field : String) : Prop :=
  ∀ k v, (d.validate k v).isSome = true ↔ k = field

/-- What every resource data of the SDK guarantees about string attributes: an
attribute of the data source that reads as a string is declared `TypeString`,
and a string written to such an attribute is stored, never refused. -/
def Realisable (d : ResourceData) : Prop :=
  ∀ k ∈ fieldNames, ∀ s v : String,
    d.Get k = Value.str s → d.validate k (Value.str v) = none

/-- The error text of the SDK for a write to an attribute its schema does not
declare. -/
def invalidAddress (field : String) : String :=
  "Invalid address to set: []string\x7b\"" ++ field ++ "\"\x7d"

/-- A resource data built on the schema of the data source with the attribute
`field` left out: the attribute reads as nil and every write to it is refused
as an invalid address; the other attributes are as in `acceptAll`. -/
def withoutAttribute (field : String) (inputs : Option StringMap) (hcd : Option String) :
    ResourceData :=
  { rejecting field (invalidAddress field) inputs hcd with
      attrs := fun k => if k = field then some Value.null else (acceptAll inputs hcd).attrs k }

/-- The resource data `d` as a caller would hand it over after an earlier
read: it already holds outputs, a random value and an identifier. -/
def afterEarlierRead (d : ResourceData) : ResourceData :=
  { d with
      attrs := fun k =>
        if k = "outputs" then some (Value.map [("old", "0")])
        else if k = "random" then some (Value.str "41")
        else d.attrs k,
      id := "previous" }

/-- The sentence "all four assignment steps can independently raise a write
failure": for each of the four fields some resource data rejects the write of
that field alone, and on it the handler returns an error. -/
def EachStepCanFail : Prop :=
  ∀ f ∈ ["outputs", "random", "has_computed_default", "id"],
    ∃ (word : Nat) (d : ResourceData),
      RejectsOnly d f ∧ HasError (dataSourceRead word d).1 = true

/-! ## Decimal digits -/

/-- The ten digit characters. -/
theorem digitChar_mem (k : Nat) :
    digitChar k ∈ ['0', '1', '2', '3', '4', '5', '6', '7', '8', '9'] := by
  unfold digitChar
  split <;> simp

theorem digitChar_isDigit (k : Nat) : (digitChar k).isDigit = true := by
  unfold digitChar
  split <;> decide

theorem digitChar_toNat : ∀ k, k < 10 → (digitChar k).toNat - 48 = k := by
  decide

theorem digitChar_eq_zero : ∀ k, k < 10 → digitChar k = '0' → k = 0 := by
  decide

theorem natDigitsAux_ne_nil (fuel n : Nat) : natDigitsAux fuel n ≠ [] := by
  cases fuel with
  | zero => simp [natDigitsAux]
  | succ f =>
    unfold natDigitsAux
    split <;> simp

theorem natDigitsAux_mem (fuel : Nat) :
    ∀ n, ∀ c ∈ natDigitsAux fuel n, c ∈ ['0', '1', '2', '3', '4', '5', '6', '7', '8', '9'] := by
  induction fuel with
  | zero =>
    intro n c hc
    simp only [natDigitsAux, List.mem_singleton] at hc
    subst hc
    exact digitChar_mem _
  | succ f ih =>
    intro n c hc
    unfold natDigitsAux at hc
    split at hc
    · simp only [List.mem_singleton] at hc
      subst hc
      exact digitChar_mem _
    · rcases List.mem_append.mp hc with h | h
      · exact ih _ c h
      · simp only [List.mem_singleton] at h
        subst h
        exact digitChar_mem _

theorem parseDecimalAux_append (l : List Char) (k : Nat) (hk : k < 10) :
    ∀ acc, parseDecimalAux (l ++ [digitChar k]) acc
      = (parseDecimalAux l acc).map (fun m => m * 10 + k) := by
  induction l with
  | nil =>
    intro acc
    simp [parseDecimalAux, digitChar_isDigit, digitChar_toNat k hk]
  | cons c cs ih =>
    intro acc
    simp only [List.cons_append, parseDecimalAux]
    split
    · exact ih _
    · rfl

theorem parseDecimalAux_natDigitsAux (fuel : Nat) :
    ∀ n, n < 10 ^ (fuel + 1) → parseDecimalAux (natDigitsAux fuel n) 0 = some n := by
  induction fuel with
  | zero =>
    intro n hn
    have h10 : n < 10 := by simpa using hn
    simp [natDigitsAux, parseDecimalAux, digitChar_isDigit, Nat.mod_eq_of_lt h10,
      digitChar_toNat n h10]
  | succ f ih =>
    intro n hn
    unfold natDigitsAux
    split
    · rename_i h10
      simp [parseDecimalAux, digitChar_isDigit, digitChar_toNat n h10]
    · have hdiv : n / 10 < 10 ^ (f + 1) := by
        rw [Nat.div_lt_iff_lt_mul (by norm_num)]
        calc n < 10 ^ (f + 1 + 1) := hn
          _ = 10 ^ (f + 1) * 10 := by ring
      rw [parseDecimalAux_append _ _ (Nat.mod_lt _ (by norm_num)), ih _ hdiv]
      simp only [Option.map_some']
      congr 1
      omega

theorem head_natDigitsAux (fuel : Nat) :
    ∀ n, n < 10 ^ (fuel + 1) → (natDigitsAux fuel n).head? = some '0' → n = 0 := by
  induction fuel with
  | zero =>
    intro n hn h
    have h10 : n < 10 := by simpa using hn
    simp only [natDigitsAux, List.head?_cons, Option.some.injEq, Nat.mod_eq_of_lt h10] at h
    exact digitChar_eq_zero n h10 h
  | succ f ih =>
    intro n hn h
    unfold natDigitsAux at h
    split at h
    · rename_i h10
      simp only [List.head?_cons, Option.some.injEq] at h
      exact digitChar_eq_zero n h10 h
    · rename_i h10
      have hdiv : n / 10 < 10 ^ (f + 1) := by
        rw [Nat.div_lt_iff_lt_mul (by norm_num)]
        calc n < 10 ^ (f + 1 + 1) := hn
          _ = 10 ^ (f + 1) * 10 := by ring
      rw [List.head?_append_of_ne_nil _ (natDigitsAux_ne_nil _ _)] at h
      have := ih _ hdiv h
      omega

theorem lt_ten_pow_succ (n : Nat) : n < 10 ^ (n + 1) :=
  lt_trans (Nat.lt_pow_self (by norm_num) n) (Nat.pow_lt_pow_right (by norm_num) (Nat.lt_succ_self n))

theorem parseDecimal_natDigits (n : Nat) : parseDecimal (String.mk (natDigits n)) = some n := by
  have h := parseDecimalAux_natDigitsAux n n (lt_ten_pow_succ n)
  unfold parseDecimal natDigits
  simp only
  split
  · rename_i heq
    exact absurd heq (natDigitsAux_ne_nil _ _)
  · rename_i heq
    rw [← heq]
    exact h

theorem sprintfD_randInt (word : Nat) :
    sprintfD (randInt word) = String.mk (natDigits (word % 2 ^ 63)) := by
  unfold sprintfD randInt
  rw [if_neg (by omega), Int.natAbs_ofNat]

/-! ## Resource data: reading after writing -/

@[simp] theorem store_validate (d : ResourceData) (k : String) (v : Value) :
    (d.store k v).validate = d.validate := rfl

@[simp] theorem store_id (d : ResourceData) (k : String) (v : Value) :
    (d.store k v).Id = d.Id := rfl

@[simp] theorem store_log (d : ResourceData) (k : String) (v : Value) :
    (d.store k v).log = d.log ++ [⟨k, v, none⟩] := rfl

@[simp] theorem readBack_str (s : String) : readBack (Value.str s) = Value.str s := rfl

@[simp] theorem store_Get_same (d : ResourceData) (k : String) (v : Value) :
    (d.store k v).Get k = readBack v := by
  simp [ResourceData.store, ResourceData.Get]

theorem store_Get_other (d : ResourceData) (k k2 : String) (v : Value) (hk : k2 ≠ k) :
    (d.store k v).Get k2 = d.Get k2 := by
  simp [ResourceData.store, ResourceData.Get, hk]

@[simp] theorem refuse_Get (d : ResourceData) (k k2 : String) (v : Value) (e : String) :
    (d.refuse k v e).Get k2 = d.Get k2 := rfl

@[simp] theorem refuse_id (d : ResourceData) (k : String) (v : Value) (e : String) :
    (d.refuse k v e).Id = d.Id := rfl

@[simp] theorem refuse_log (d : ResourceData) (k : String) (v : Value) (e : String) :
    (d.refuse k v e).log = d.log ++ [⟨k, v, some e⟩] := rfl

@[simp] theorem SetId_Get (d : ResourceData) (v k : String) :
    (d.SetId v).Get k = d.Get k := rfl

@[simp] theorem SetId_Id (d : ResourceData) (v : String) : (d.SetId v).Id = v := rfl

@[simp] theorem SetId_log (d : ResourceData) (v : String) :
    (d.SetId v).log = d.log ++ [⟨"id", Value.str v, none⟩] := rfl

/-! ## The five ways through the handler -/

theorem read_outputs_rejected (word : Nat) (d : ResourceData) (e : String)
    (h1 : d.validate "outputs" (d.Get "inputs") = some e) :
    dataSourceRead word d =
      (Errorf ("error setting outputs: " ++ e), d.refuse "outputs" (d.Get "inputs") e) := by
  simp [dataSourceRead, ResourceData.Set, h1]

theorem read_random_rejected (word : Nat) (d : ResourceData) (e : String)
    (h1 : d.validate "outputs" (d.Get "inputs") = none)
    (h2 : d.validate "random" (Value.str (sprintfD (randInt word))) = some e) :
    dataSourceRead word d =
      (Errorf ("error setting random int: " ++ e),
        (d.store "outputs" (d.Get "inputs")).refuse "random"
          (Value.str (sprintfD (randInt word))) e) := by
  simp [dataSourceRead, ResourceData.Set, h1, h2]

theorem hcd_after_two (word : Nat) (d : ResourceData) :
    ((d.store "outputs" (d.Get "inputs")).store "random"
      (Value.str (sprintfD (randInt word)))).Get "has_computed_default"
      = d.Get "has_computed_default" := by
  rw [store_Get_other _ _ _ _ (by decide), store_Get_other _ _ _ _ (by decide)]

theorem read_default_rejected (word : Nat) (d : ResourceData) (e : String)
    (h1 : d.validate "outputs" (d.Get "inputs") = none)
    (h2 : d.validate "random" (Value.str (sprintfD (randInt word))) = none)
    (h3 : d.Get "has_computed_default" = Value.str "")
    (h4 : d.validate "has_computed_default" (Value.str "default") = some e) :
    dataSourceRead word d =
      (Errorf ("error setting has_computed_default: " ++ e),
        ((d.store "outputs" (d.Get "inputs")).store "random"
          (Value.str (sprintfD (randInt word)))).refuse "has_computed_default"
          (Value.str "default") e) := by
  have h := hcd_after_two word d
  simp [dataSourceRead, ResourceData.Set, h1, h2, h, h3, h4]

theorem read_default_stored (word : Nat) (d : ResourceData)
    (h1 : d.validate "outputs" (d.Get "inputs") = none)
    (h2 : d.validate "random" (Value.str (sprintfD (randInt word))) = none)
    (h3 : d.Get "has_computed_default" = Value.str "")
    (h4 : d.validate "has_computed_default" (Value.str "default") = none) :
    dataSourceRead word d =
      ([], ((((d.store "outputs" (d.Get "inputs")).store "random"
          (Value.str (sprintfD (randInt word)))).store "has_computed_default"
          (Value.str "default")).SetId "static")) := by
  have h := hcd_after_two word d
  simp [dataSourceRead, ResourceData.Set, h1, h2, h, h3, h4]

theorem read_default_kept (word : Nat) (d : ResourceData)
    (h1 : d.validate "outputs" (d.Get "inputs") = none)
    (h2 : d.validate "random" (Value.str (sprintfD (randInt word))) = none)
    (h3 : d.Get "has_computed_default" ≠ Value.str "") :
    dataSourceRead word d =
      ([], (((d.store "outputs" (d.Get "inputs")).store "random"
          (Value.str (sprintfD (randInt word)))).SetId "static")) := by
  have h := hcd_after_two word d
  simp [dataSourceRead, ResourceData.Set, h1, h2, h, h3]

theorem hasError_Errorf (msg : String) : HasError (Errorf msg) = true := by
  simp [HasError, Errorf]

theorem hasError_nil : HasError [] = false := rfl

/-- A read that reports no error went through every write it attempted. -/
theorem read_ok_cases (word : Nat) (d : ResourceData)
    (hok : HasError (dataSourceRead word d).1 = false) :
    d.validate "outputs" (d.Get "inputs") = none ∧
    d.validate "random" (Value.str (sprintfD (randInt word))) = none ∧
    ((d.Get "has_computed_default" = Value.str "" ∧
        d.validate "has_computed_default" (Value.str "default") = none) ∨
      d.Get "has_computed_default" ≠ Value.str "") := by
  cases h1 : d.validate "outputs" (d.Get "inputs") with
  | some e =>
    rw [read_outputs_rejected word d e h1] at hok
    simp [hasError_Errorf] at hok
  | none =>
    cases h2 : d.validate "random" (Value.str (sprintfD (randInt word))) with
    | some e =>
      rw [read_random_rejected word d e h1 h2] at hok
      simp [hasError_Errorf] at hok
    | none =>
      refine ⟨rfl, rfl, ?_⟩
      by_cases h3 : d.Get "has_computed_default" = Value.str ""
      · cases h4 : d.validate "has_computed_default" (Value.str "default") with
        | some e =>
          rw [read_default_rejected word d e h1 h2 h3 h4] at hok
          simp [hasError_Errorf] at hok
        | none => exact Or.inl ⟨h3, rfl⟩
      · exact Or.inr h3

/-! ## Occurrences of a name in a text -/

theorem beginsWith_iff (p : List Char) : ∀ l, beginsWith l p = true ↔ ∃ t, l = p ++ t := by
  induction p with
  | nil => intro l; simp [beginsWith]
  | cons x xs ih =>
    intro l
    cases l with
    | nil => simp [beginsWith]
    | cons c cs =>
      simp only [beginsWith, Bool.and_eq_true, decide_eq_true_eq, ih, List.cons_append,
        List.cons.injEq]
      constructor
      · rintro ⟨rfl, t, rfl⟩
        exact ⟨t, rfl, rfl⟩
      · rintro ⟨t, rfl, rfl⟩
        exact ⟨rfl, t, rfl⟩

theorem occursIn_iff (name : List Char) :
    ∀ l, occursIn name l = true ↔ ∃ a b, l = a ++ name ++ b := by
  intro l
  induction l with
  | nil =>
    simp only [occursIn, List.isEmpty_iff]
    constructor
    · rintro rfl
      exact ⟨[], [], rfl⟩
    · rintro ⟨a, b, h⟩
      have h2 := congrArg List.length h
      simp only [List.length_nil, List.length_append] at h2
      exact List.length_eq_zero.mp (by omega)
  | cons c cs ih =>
    simp only [occursIn, Bool.or_eq_true, beginsWith_iff, ih]
    constructor
    · rintro (⟨t, h⟩ | ⟨a, b, h⟩)
      · exact ⟨[], t, by simpa using h⟩
      · exact ⟨c :: a, b, by simp [h]⟩
    · rintro ⟨a, b, h⟩
      cases a with
      | nil => exact Or.inl ⟨b, by simpa using h⟩
      | cons x xs =>
        simp only [List.cons_append, List.cons.injEq] at h
        exact Or.inr ⟨xs, b, h.2⟩

theorem occursIn_append_right (name p e : List Char) (h : occursIn name p = true) :
    occursIn name (p ++ e) = true := by
  rw [occursIn_iff] at h ⊢
  obtain ⟨a, b, rfl⟩ := h
  exact ⟨a, b ++ e, by simp⟩

/-- A name without the character `sep` that occurs in `p ++ sep :: e` occurs
in `p ++ [sep]` or in `e`: it cannot straddle `sep`. -/
theorem occursIn_split (name p e : List Char) (sep : Char) (hsep : sep ∉ name)
    (h : occursIn name (p ++ sep :: e) = true) :
    occursIn name (p ++ [sep]) = true ∨ occursIn name e = true := by
  rw [occursIn_iff] at h
  obtain ⟨a, b, h⟩ := h
  rw [List.append_eq_append_iff] at h
  rcases h with ⟨a1, h1, h2⟩ | ⟨c1, h1, h2⟩
  · cases a1 with
    | nil =>
      left
      rw [occursIn_iff]
      refine ⟨a, [sep], ?_⟩
      simp only [List.append_nil] at h1
      rw [h1]
    | cons x a2 =>
      simp only [List.cons_append, List.cons.injEq] at h2
      obtain ⟨rfl, rfl⟩ := h2
      rw [List.append_eq_append_iff] at h1
      rcases h1 with ⟨y, hy1, hy2⟩ | ⟨y, hy1, hy2⟩
      · exact absurd (by rw [hy2]; simp) hsep
      · cases y with
        | nil =>
          simp only [List.nil_append] at hy2
          exact absurd (by rw [← hy2]; simp) hsep
        | cons z y2 =>
          simp only [List.cons_append, List.cons.injEq] at hy2
          obtain ⟨rfl, rfl⟩ := hy2
          right
          rw [occursIn_iff]
          exact ⟨y2, b, by simp⟩
  · left
    rw [occursIn_iff]
    exact ⟨a, c1 ++ [sep], by rw [h1]; simp⟩

/-! ## What a read without error leaves behind -/

/-- After a read that completes without error the `outputs` attribute reads
as what `d.Get("inputs")` gave, written and read back: equal to the inputs
when no key of theirs is `#` or `%`. -/
theorem read_outputs_readBack (word : Nat) (d : ResourceData)
    (hok : HasError (dataSourceRead word d).1 = false) :
    (dataSourceRead word d).2.Get "outputs" = readBack (d.Get "inputs") := by
  obtain ⟨h1, h2, h3⟩ := read_ok_cases word d hok
  rcases h3 with ⟨h3, h4⟩ | h3
  · rw [read_default_stored word d h1 h2 h3 h4]
    simp only [SetId_Get]
    rw [store_Get_other _ _ _ _ (by decide), store_Get_other _ _ _ _ (by decide),
      store_Get_same]
  · rw [read_default_kept word d h1 h2 h3]
    simp only [SetId_Get]
    rw [store_Get_other _ _ _ _ (by decide), store_Get_same]

/-- A map none of whose keys is `#` or `%` is read back as it was written. -/
theorem readBack_map_of_plain_keys (M : StringMap)
    (hM : ∀ kv ∈ M, reservedKey kv.1 = false) : readBack (Value.map M) = Value.map M := by
  simp only [readBack, Value.map.injEq, List.filter_eq_self]
  intro kv hkv
  simp [hM kv hkv]

/-- C1, at the input where the code departs from it: the resource data holds
the inputs `# = 5`, the read completes without error, and outputs is left
empty, the entry under `#` being dropped; with the inputs `# = 5, a = 1` only
`a = 1` arrives.  Inputs without such a key are copied whole, as the claim's
own examples `a = 1, b = 2` and the empty mapping show. -/
theorem read_outputs_drops_reserved_key :
    ((acceptAll (some [("#", "5")]) none).Get "inputs" = Value.map [("#", "5")] ∧
      (dataSourceRead 0 (acceptAll (some [("#", "5")]) none)).1 = [] ∧
      (dataSourceRead 0 (acceptAll (some [("#", "5")]) none)).2.Get "outputs"
        = Value.map []) ∧
    ((acceptAll (some [("#", "5"), ("a", "1")]) none).Get "inputs"
        = Value.map [("#", "5"), ("a", "1")] ∧
      (dataSourceRead 0 (acceptAll (some [("#", "5"), ("a", "1")]) none)).1 = [] ∧
      (dataSourceRead 0 (acceptAll (some [("#", "5"), ("a", "1")]) none)).2.Get "outputs"
        = Value.map [("a", "1")]) ∧
    (dataSourceRead 0 (acceptAll (some [("a", "1"), ("b", "2")]) none)).2.Get "outputs"
      = Value.map [("a", "1"), ("b", "2")] ∧
    (dataSourceRead 0 (acceptAll (some []) (some "x"))).2.Get "outputs" = Value.map [] := by
  decide

/-- C2: after a read that completes without error `has_computed_default` is
`"default"` when the caller's value is absent or the empty string, and is the
caller's value unchanged when that is a non-empty string. -/
theorem read_has_computed_default (word : Nat) (d : ResourceData)
    (hok : HasError (dataSourceRead word d).1 = false) :
    (d.attrs "has_computed_default" = none →
      (dataSourceRead word d).2.Get "has_computed_default" = Value.str "default") ∧
    (d.attrs "has_computed_default" = some (Value.str "") →
      (dataSourceRead word d).2.Get "has_computed_default" = Value.str "default") ∧
    (∀ h : String, h ≠ "" → d.attrs "has_computed_default" = some (Value.str h) →
      (dataSourceRead word d).2.Get "has_computed_default" = Value.str h) := by
  obtain ⟨h1, h2, h3⟩ := read_ok_cases word d hok
  have hempty : d.Get "has_computed_default" = Value.str "" →
      (dataSourceRead word d).2.Get "has_computed_default" = Value.str "default" := by
    intro he
    rcases h3 with ⟨h3, h4⟩ | h3
    · rw [read_default_stored word d h1 h2 h3 h4]
      simp
    · exact absurd he h3
  refine ⟨?_, ?_, ?_⟩
  · intro ha
    apply hempty
    simp only [ResourceData.Get, ha]
    rfl
  · intro ha
    apply hempty
    simp [ResourceData.Get, ha]
  · intro h hne ha
    have hg : d.Get "has_computed_default" = Value.str h := by
      simp [ResourceData.Get, ha]
    have hne2 : d.Get "has_computed_default" ≠ Value.str "" := by
      rw [hg]
      intro hc
      exact hne (Value.str.inj hc)
    rw [read_default_kept word d h1 h2 hne2]
    simp only [SetId_Get]
    rw [hcd_after_two, hg]

/-- C2, at an absent value, at the empty string, at `"custom"` and at `"x"`. -/
theorem read_has_computed_default_witness :
    (dataSourceRead 7 (acceptAll none none)).2.Get "has_computed_default"
      = Value.str "default" ∧
    (dataSourceRead 7 (acceptAll none (some ""))).2.Get "has_computed_default"
      = Value.str "default" ∧
    (dataSourceRead 7 (acceptAll none (some "custom"))).2.Get "has_computed_default"
      = Value.str "custom" ∧
    (dataSourceRead 7 (acceptAll (some []) (some "x"))).2.Get "has_computed_default"
      = Value.str "x" :=
  ⟨(read_has_computed_default 7 (acceptAll none none) (by decide)).1 rfl,
   (read_has_computed_default 7 (acceptAll none (some "")) (by decide)).2.1 rfl,
   (read_has_computed_default 7 (acceptAll none (some "custom")) (by decide)).2.2 _
      (by decide) rfl,
   (read_has_computed_default 7 (acceptAll (some []) (some "x")) (by decide)).2.2 _
      (by decide) rfl⟩

/-- C3: after a read that completes without error the resource identifier is
the literal `"static"`, whatever the resource data held before and whatever
the generator drew. -/
theorem read_id_static (word : Nat) (d : ResourceData)
    (hok : HasError (dataSourceRead word d).1 = false) :
    (dataSourceRead word d).2.Id = "static" := by
  obtain ⟨h1, h2, h3⟩ := read_ok_cases word d hok
  rcases h3 with ⟨h3, h4⟩ | h3
  · rw [read_default_stored word d h1 h2 h3 h4]
    simp
  · rw [read_default_kept word d h1 h2 h3]
    simp

/-- C3, on a resource data whose identifier was `"previous"`. -/
theorem read_id_static_witness :
    (afterEarlierRead (acceptAll (some [("a", "1")]) (some "x"))).Id = "previous" ∧
    (dataSourceRead 99 (afterEarlierRead (acceptAll (some [("a", "1")]) (some "x")))).2.Id
      = "static" :=
  ⟨rfl, read_id_static 99 (afterEarlierRead (acceptAll (some [("a", "1")]) (some "x")))
    (by decide)⟩

/-- C5: after a read that completes without error `has_computed_default` is not
the empty string, whatever the caller supplied. -/
theorem read_has_computed_default_nonempty (word : Nat) (d : ResourceData)
    (hok : HasError (dataSourceRead word d).1 = false) :
    (dataSourceRead word d).2.Get "has_computed_default" ≠ Value.str "" := by
  obtain ⟨h1, h2, h3⟩ := read_ok_cases word d hok
  rcases h3 with ⟨h3, h4⟩ | h3
  · rw [read_default_stored word d h1 h2 h3 h4]
    simp
  · rw [read_default_kept word d h1 h2 h3]
    simp only [SetId_Get]
    rw [hcd_after_two]
    exact h3

/-- C5, at an absent, an empty and a non-empty caller value. -/
theorem read_has_computed_default_nonempty_witness :
    (dataSourceRead 3 (acceptAll none none)).2.Get "has_computed_default" ≠ Value.str "" ∧
    (dataSourceRead 3 (acceptAll none (some ""))).2.Get "has_computed_default"
      ≠ Value.str "" ∧
    (dataSourceRead 3 (acceptAll none (some "x"))).2.Get "has_computed_default"
      ≠ Value.str "" :=
  ⟨read_has_computed_default_nonempty 3 (acceptAll none none) (by decide),
   read_has_computed_default_nonempty 3 (acceptAll none (some "")) (by decide),
   read_has_computed_default_nonempty 3 (acceptAll none (some "x")) (by decide)⟩

/-- C4: after a read that completes without error the `random` attribute is
the decimal form of the number `n` the generator drew, `n` being non-negative:
the string is not empty, is made of the digits 0 to 9 only, starts with `0`
only when `n = 0` (and is then `"0"`), and parses back to `n`. -/
theorem read_random_decimal (word : Nat) (d : ResourceData)
    (hok : HasError (dataSourceRead word d).1 = false) :
    ∃ (n : Nat) (s : String),
      randInt word = (n : Int) ∧ 0 ≤ randInt word ∧
      s = sprintfD (randInt word) ∧
      (dataSourceRead word d).2.Get "random" = Value.str s ∧
      s.data ≠ [] ∧
      (∀ c ∈ s.data, c ∈ ['0', '1', '2', '3', '4', '5', '6', '7', '8', '9']) ∧
      (s.data.head? = some '0' → n = 0 ∧ s = "0") ∧
      parseDecimal s = some n := by
  obtain ⟨h1, h2, h3⟩ := read_ok_cases word d hok
  have hget : (dataSourceRead word d).2.Get "random"
      = Value.str (sprintfD (randInt word)) := by
    rcases h3 with ⟨h3, h4⟩ | h3
    · rw [read_default_stored word d h1 h2 h3 h4]
      simp only [SetId_Get]
      rw [store_Get_other _ _ _ _ (by decide), store_Get_same, readBack_str]
    · rw [read_default_kept word d h1 h2 h3]
      simp
  have hzero : ∀ m : Nat, (natDigits m).head? = some '0' → m = 0 :=
    fun m => head_natDigitsAux m m (lt_ten_pow_succ m)
  refine ⟨word % 2 ^ 63, String.mk (natDigits (word % 2 ^ 63)), rfl, ?_,
    (sprintfD_randInt word).symm, ?_, natDigitsAux_ne_nil _ _, natDigitsAux_mem _ _, ?_,
    parseDecimal_natDigits _⟩
  · exact Int.ofNat_nonneg _
  · rw [hget, sprintfD_randInt]
  · intro h0
    have hn := hzero _ h0
    refine ⟨hn, ?_⟩
    rw [hn]
    rfl

/-- C4, at a draw whose word has the sign bit set over the number 42, and at a
draw of zero. -/
theorem read_random_decimal_witness :
    (∃ (n : Nat) (s : String),
      randInt (2 ^ 63 + 42) = (n : Int) ∧ 0 ≤ randInt (2 ^ 63 + 42) ∧
      s = sprintfD (randInt (2 ^ 63 + 42)) ∧
      (dataSourceRead (2 ^ 63 + 42) (acceptAll none none)).2.Get "random" = Value.str s ∧
      s.data ≠ [] ∧
      (∀ c ∈ s.data, c ∈ ['0', '1', '2', '3', '4', '5', '6', '7', '8', '9']) ∧
      (s.data.head? = some '0' → n = 0 ∧ s = "0") ∧
      parseDecimal s = some n) ∧
    (dataSourceRead (2 ^ 63 + 42) (acceptAll none none)).2.Get "random" = Value.str "42" ∧
    parseDecimal "42" = some 42 ∧
    (dataSourceRead 0 (acceptAll none none)).2.Get "random" = Value.str "0" :=
  ⟨read_random_decimal (2 ^ 63 + 42) (acceptAll none none) (by decide),
   by decide, by decide, by decide⟩

/-! ## Failed writes -/

theorem attempts_outputs_rejected (word : Nat) (d : ResourceData) (e : String)
    (h1 : d.validate "outputs" (d.Get "inputs") = some e) :
    attempts word d = [⟨"outputs", d.Get "inputs", some e⟩] := by
  simp [attempts, read_outputs_rejected word d e h1]

theorem attempts_random_rejected (word : Nat) (d : ResourceData) (e : String)
    (h1 : d.validate "outputs" (d.Get "inputs") = none)
    (h2 : d.validate "random" (Value.str (sprintfD (randInt word))) = some e) :
    attempts word d =
      [⟨"outputs", d.Get "inputs", none⟩,
       ⟨"random", Value.str (sprintfD (randInt word)), some e⟩] := by
  simp [attempts, read_random_rejected word d e h1 h2]

theorem attempts_default_rejected (word : Nat) (d : ResourceData) (e : String)
    (h1 : d.validate "outputs" (d.Get "inputs") = none)
    (h2 : d.validate "random" (Value.str (sprintfD (randInt word))) = none)
    (h3 : d.Get "has_computed_default" = Value.str "")
    (h4 : d.validate "has_computed_default" (Value.str "default") = some e) :
    attempts word d =
      [⟨"outputs", d.Get "inputs", none⟩,
       ⟨"random", Value.str (sprintfD (randInt word)), none⟩,
       ⟨"has_computed_default", Value.str "default", some e⟩] := by
  simp [attempts, read_default_rejected word d e h1 h2 h3 h4]

theorem attempts_default_stored (word : Nat) (d : ResourceData)
    (h1 : d.validate "outputs" (d.Get "inputs") = none)
    (h2 : d.validate "random" (Value.str (sprintfD (randInt word))) = none)
    (h3 : d.Get "has_computed_default" = Value.str "")
    (h4 : d.validate "has_computed_default" (Value.str "default") = none) :
    attempts word d =
      [⟨"outputs", d.Get "inputs", none⟩,
       ⟨"random", Value.str (sprintfD (randInt word)), none⟩,
       ⟨"has_computed_default", Value.str "default", none⟩,
       ⟨"id", Value.str "static", none⟩] := by
  simp [attempts, read_default_stored word d h1 h2 h3 h4]

theorem attempts_default_kept (word : Nat) (d : ResourceData)
    (h1 : d.validate "outputs" (d.Get "inputs") = none)
    (h2 : d.validate "random" (Value.str (sprintfD (randInt word))) = none)
    (h3 : d.Get "has_computed_default" ≠ Value.str "") :
    attempts word d =
      [⟨"outputs", d.Get "inputs", none⟩,
       ⟨"random", Value.str (sprintfD (randInt word)), none⟩,
       ⟨"id", Value.str "static", none⟩] := by
  simp [attempts, read_default_kept word d h1 h2 h3]

/-- The handler returns an error exactly when the host rejects the outputs
write, the random write, or the default write it makes for an empty
`has_computed_default`. -/
theorem hasError_read_iff (word : Nat) (d : ResourceData) :
    HasError (dataSourceRead word d).1 = true ↔
      ((d.validate "outputs" (d.Get "inputs")).isSome = true ∨
       (d.validate "random" (Value.str (sprintfD (randInt word)))).isSome = true ∨
       (d.Get "has_computed_default" = Value.str "" ∧
        (d.validate "has_computed_default" (Value.str "default")).isSome = true)) := by
  cases h1 : d.validate "outputs" (d.Get "inputs") with
  | some e => simp [read_outputs_rejected word d e h1, hasError_Errorf]
  | none =>
    cases h2 : d.validate "random" (Value.str (sprintfD (randInt word))) with
    | some e => simp [read_random_rejected word d e h1 h2, hasError_Errorf]
    | none =>
      by_cases h3 : d.Get "has_computed_default" = Value.str ""
      · cases h4 : d.validate "has_computed_default" (Value.str "default") with
        | some e => simp [read_default_rejected word d e h1 h2 h3 h4, hasError_Errorf, h3]
        | none => simp [read_default_stored word d h1 h2 h3 h4, hasError_nil]
      · simp [read_default_kept word d h1 h2 h3, hasError_nil, h3]

/-- C6: the handler writes in the order outputs, random, has_computed_default
(then the identifier) and stops at the first write that fails.  The attributes
it attempts form, in order, a selection of that list, and only the last
attempt can have been rejected.  When the outputs write fails nothing else is
attempted and random, has_computed_default and the identifier stay as they
were; when the random write fails has_computed_default and the identifier stay
as they were; when the has_computed_default write fails the identifier stays
as it was.  In each case the failure is returned. -/
theorem read_stops_at_first_failed_write (word : Nat) (d : ResourceData) :
    ((attempts word d).map WriteAttempt.key).Sublist
      ["outputs", "random", "has_computed_default", "id"] ∧
    (∀ a ∈ (attempts word d).dropLast, a.err = none) ∧
    (∀ e, d.validate "outputs" (d.Get "inputs") = some e →
      (dataSourceRead word d).1 = Errorf ("error setting outputs: " ++ e) ∧
      attempts word d = [⟨"outputs", d.Get "inputs", some e⟩] ∧
      (dataSourceRead word d).2.Get "random" = d.Get "random" ∧
      (dataSourceRead word d).2.Get "has_computed_default" = d.Get "has_computed_default" ∧
      (dataSourceRead word d).2.Id = d.Id) ∧
    (∀ e, d.validate "outputs" (d.Get "inputs") = none →
      d.validate "random" (Value.str (sprintfD (randInt word))) = some e →
      (dataSourceRead word d).1 = Errorf ("error setting random int: " ++ e) ∧
      attempts word d =
        [⟨"outputs", d.Get "inputs", none⟩,
         ⟨"random", Value.str (sprintfD (randInt word)), some e⟩] ∧
      (dataSourceRead word d).2.Get "has_computed_default" = d.Get "has_computed_default" ∧
      (dataSourceRead word d).2.Id = d.Id) ∧
    (∀ e, d.validate "outputs" (d.Get "inputs") = none →
      d.validate "random" (Value.str (sprintfD (randInt word))) = none →
      d.Get "has_computed_default" = Value.str "" →
      d.validate "has_computed_default" (Value.str "default") = some e →
      (dataSourceRead word d).1 = Errorf ("error setting has_computed_default: " ++ e) ∧
      attempts word d =
        [⟨"outputs", d.Get "inputs", none⟩,
         ⟨"random", Value.str (sprintfD (randInt word)), none⟩,
         ⟨"has_computed_default", Value.str "default", some e⟩] ∧
      (dataSourceRead word d).2.Id = d.Id) := by
  refine ⟨?_, ?_, ?_, ?_, ?_⟩
  · cases h1 : d.validate "outputs" (d.Get "inputs") with
    | some e => rw [attempts_outputs_rejected word d e h1]; simp only [List.map]; decide
    | none =>
      cases h2 : d.validate "random" (Value.str (sprintfD (randInt word))) with
      | some e => rw [attempts_random_rejected word d e h1 h2]; simp only [List.map]; decide
      | none =>
        by_cases h3 : d.Get "has_computed_default" = Value.str ""
        · cases h4 : d.validate "has_computed_default" (Value.str "default") with
          | some e => rw [attempts_default_rejected word d e h1 h2 h3 h4]; simp only [List.map]; decide
          | none => rw [attempts_default_stored word d h1 h2 h3 h4]; simp only [List.map]; decide
        · rw [attempts_default_kept word d h1 h2 h3]; simp only [List.map]; decide
  · cases h1 : d.validate "outputs" (d.Get "inputs") with
    | some e => rw [attempts_outputs_rejected word d e h1]; simp
    | none =>
      cases h2 : d.validate "random" (Value.str (sprintfD (randInt word))) with
      | some e => rw [attempts_random_rejected word d e h1 h2]; simp
      | none =>
        by_cases h3 : d.Get "has_computed_default" = Value.str ""
        · cases h4 : d.validate "has_computed_default" (Value.str "default") with
          | some e => rw [attempts_default_rejected word d e h1 h2 h3 h4]; simp
          | none => rw [attempts_default_stored word d h1 h2 h3 h4]; simp
        · rw [attempts_default_kept word d h1 h2 h3]; simp
  · intro e h1
    refine ⟨?_, attempts_outputs_rejected word d e h1, ?_, ?_, ?_⟩ <;>
      simp [read_outputs_rejected word d e h1]
  · intro e h1 h2
    refine ⟨?_, attempts_random_rejected word d e h1 h2, ?_, ?_⟩
    · simp [read_random_rejected word d e h1 h2]
    · rw [read_random_rejected word d e h1 h2]
      simp only [refuse_Get]
      exact store_Get_other _ _ _ _ (by decide)
    · simp [read_random_rejected word d e h1 h2]
  · intro e h1 h2 h3 h4
    refine ⟨?_, attempts_default_rejected word d e h1 h2 h3 h4, ?_⟩ <;>
      simp [read_default_rejected word d e h1 h2 h3 h4]

/-- C6, on resource data that already hold outputs `old = 0`, random `41`
and the identifier `previous`, and reject in turn the outputs write, the
random write and the has_computed_default write. -/
theorem read_stops_at_first_failed_write_witness :
    ((dataSourceRead 5 (afterEarlierRead (rejecting "outputs" "boom" none none))).1
        = Errorf ("error setting outputs: " ++ "boom") ∧
      attempts 5 (afterEarlierRead (rejecting "outputs" "boom" none none))
        = [⟨"outputs", Value.map [], some "boom"⟩] ∧
      (dataSourceRead 5 (afterEarlierRead (rejecting "outputs" "boom" none none))).2.Get
        "random" = Value.str "41" ∧
      (dataSourceRead 5 (afterEarlierRead (rejecting "outputs" "boom" none none))).2.Get
        "has_computed_default" = Value.str "" ∧
      (dataSourceRead 5 (afterEarlierRead (rejecting "outputs" "boom" none none))).2.Id
        = "previous") ∧
    ((dataSourceRead 5 (afterEarlierRead (rejecting "random" "boom" none none))).1
        = Errorf ("error setting random int: " ++ "boom") ∧
      attempts 5 (afterEarlierRead (rejecting "random" "boom" none none))
        = [⟨"outputs", Value.map [], none⟩, ⟨"random", Value.str "5", some "boom"⟩] ∧
      (dataSourceRead 5 (afterEarlierRead (rejecting "random" "boom" none none))).2.Get
        "has_computed_default" = Value.str "" ∧
      (dataSourceRead 5 (afterEarlierRead (rejecting "random" "boom" none none))).2.Id
        = "previous") ∧
    ((dataSourceRead 5
        (afterEarlierRead (rejecting "has_computed_default" "boom" none none))).1
        = Errorf ("error setting has_computed_default: " ++ "boom") ∧
      attempts 5 (afterEarlierRead (rejecting "has_computed_default" "boom" none none))
        = [⟨"outputs", Value.map [], none⟩, ⟨"random", Value.str "5", none⟩,
           ⟨"has_computed_default", Value.str "default", some "boom"⟩] ∧
      (dataSourceRead 5
        (afterEarlierRead (rejecting "has_computed_default" "boom" none none))).2.Id
        = "previous") :=
  ⟨(read_stops_at_first_failed_write 5
      (afterEarlierRead (rejecting "outputs" "boom" none none))).2.2.1 "boom" rfl,
   (read_stops_at_first_failed_write 5
      (afterEarlierRead (rejecting "random" "boom" none none))).2.2.2.1 "boom" rfl rfl,
   (read_stops_at_first_failed_write 5
      (afterEarlierRead (rejecting "has_computed_default" "boom" none none))).2.2.2.2
      "boom" rfl rfl rfl rfl⟩

/-- C7: a rejected write is the only way the handler fails.  It returns an
error exactly when one of the writes it attempted was rejected, which is
exactly when the host rejects the outputs write, the random write, or the
default written for an empty `has_computed_default`; every attempt through
`d.Set` carries the answer the host gave; and when every attempted write is
accepted the handler returns no diagnostics. -/
theorem read_fails_iff_write_rejected (word : Nat) (d : ResourceData) :
    (HasError (dataSourceRead word d).1 = true ↔
      ∃ a ∈ attempts word d, a.err.isSome = true) ∧
    (HasError (dataSourceRead word d).1 = true ↔
      ((d.validate "outputs" (d.Get "inputs")).isSome = true ∨
       (d.validate "random" (Value.str (sprintfD (randInt word)))).isSome = true ∨
       (d.Get "has_computed_default" = Value.str "" ∧
        (d.validate "has_computed_default" (Value.str "default")).isSome = true))) ∧
    (∀ a ∈ attempts word d, a.key ≠ "id" → a.err = d.validate a.key a.value) ∧
    ((∀ a ∈ attempts word d, a.err = none) → (dataSourceRead word d).1 = []) := by
  refine ⟨?_, hasError_read_iff word d, ?_, ?_⟩
  · cases h1 : d.validate "outputs" (d.Get "inputs") with
    | some e =>
      rw [attempts_outputs_rejected word d e h1]
      simp [read_outputs_rejected word d e h1, hasError_Errorf]
    | none =>
      cases h2 : d.validate "random" (Value.str (sprintfD (randInt word))) with
      | some e =>
        rw [attempts_random_rejected word d e h1 h2]
        simp [read_random_rejected word d e h1 h2, hasError_Errorf]
      | none =>
        by_cases h3 : d.Get "has_computed_default" = Value.str ""
        · cases h4 : d.validate "has_computed_default" (Value.str "default") with
          | some e =>
            rw [attempts_default_rejected word d e h1 h2 h3 h4]
            simp [read_default_rejected word d e h1 h2 h3 h4, hasError_Errorf]
          | none =>
            rw [attempts_default_stored word d h1 h2 h3 h4]
            simp [read_default_stored word d h1 h2 h3 h4, hasError_nil]
        · rw [attempts_default_kept word d h1 h2 h3]
          simp [read_default_kept word d h1 h2 h3, hasError_nil]
  · cases h1 : d.validate "outputs" (d.Get "inputs") with
    | some e =>
      rw [attempts_outputs_rejected word d e h1]
      simp [h1]
    | none =>
      cases h2 : d.validate "random" (Value.str (sprintfD (randInt word))) with
      | some e =>
        rw [attempts_random_rejected word d e h1 h2]
        simp [h1, h2]
      | none =>
        by_cases h3 : d.Get "has_computed_default" = Value.str ""
        · cases h4 : d.validate "has_computed_default" (Value.str "default") with
          | some e =>
            rw [attempts_default_rejected word d e h1 h2 h3 h4]
            simp [h1, h2, h4]
          | none =>
            rw [attempts_default_stored word d h1 h2 h3 h4]
            simp [h1, h2, h4]
        · rw [attempts_default_kept word d h1 h2 h3]
          simp [h1, h2]
  · intro hall
    cases h1 : d.validate "outputs" (d.Get "inputs") with
    | some e =>
      rw [attempts_outputs_rejected word d e h1] at hall
      simp at hall
    | none =>
      cases h2 : d.validate "random" (Value.str (sprintfD (randInt word))) with
      | some e =>
        rw [attempts_random_rejected word d e h1 h2] at hall
        simp at hall
      | none =>
        by_cases h3 : d.Get "has_computed_default" = Value.str ""
        · cases h4 : d.validate "has_computed_default" (Value.str "default") with
          | some e =>
            rw [attempts_default_rejected word d e h1 h2 h3 h4] at hall
            simp at hall
          | none => rw [read_default_stored word d h1 h2 h3 h4]
        · rw [read_default_kept word d h1 h2 h3]

/-- A failed read does not undo the writes it made: with the outputs write
accepted, a rejected random write leaves outputs reading as the inputs written
and read back, and a rejected has_computed_default write leaves that and the
random value just drawn. -/
theorem failed_read_outputs_readBack (word : Nat) (d : ResourceData)
    (h1 : d.validate "outputs" (d.Get "inputs") = none) :
    (∀ e, d.validate "random" (Value.str (sprintfD (randInt word))) = some e →
      HasError (dataSourceRead word d).1 = true ∧
      (dataSourceRead word d).2.Get "outputs" = readBack (d.Get "inputs")) ∧
    (∀ e, d.validate "random" (Value.str (sprintfD (randInt word))) = none →
      d.Get "has_computed_default" = Value.str "" →
      d.validate "has_computed_default" (Value.str "default") = some e →
      HasError (dataSourceRead word d).1 = true ∧
      (dataSourceRead word d).2.Get "outputs" = readBack (d.Get "inputs") ∧
      (dataSourceRead word d).2.Get "random" = Value.str (sprintfD (randInt word))) := by
  constructor
  · intro e h2
    rw [read_random_rejected word d e h1 h2]
    simp [hasError_Errorf]
  · intro e h2 h3 h4
    rw [read_default_rejected word d e h1 h2 h3 h4]
    refine ⟨hasError_Errorf _, ?_, ?_⟩
    · simp only [refuse_Get]
      rw [store_Get_other _ _ _ _ (by decide), store_Get_same]
    · simp

theorem rejecting_rejectsOnly (field text : String) (inputs : Option StringMap)
    (hcd : Option String) : RejectsOnly (rejecting field text inputs hcd) field := by
  intro k v
  by_cases hk : k = field <;> simp [rejecting, hk]

/-- A resource data that accepts the three writes made through `d.Set` gets no
error from the handler, and the identifier `"static"`. -/
theorem read_ok_of_accepts (word : Nat) (d : ResourceData)
    (ho : ∀ v, d.validate "outputs" v = none)
    (hr : ∀ v, d.validate "random" v = none)
    (hh : ∀ v, d.validate "has_computed_default" v = none) :
    (dataSourceRead word d).1 = [] ∧ (dataSourceRead word d).2.Id = "static" := by
  by_cases h3 : d.Get "has_computed_default" = Value.str ""
  · rw [read_default_stored word d (ho _) (hr _) h3 (hh _)]
    simp
  · rw [read_default_kept word d (ho _) (hr _) h3]
    simp

theorem accepts_of_rejectsOnly (d : ResourceData) (f k : String) (h : RejectsOnly d f)
    (hk : k ≠ f) (v : Value) : d.validate k v = none := by
  have h1 := (h k v).not.mpr hk
  cases hv : d.validate k v with
  | none => rfl
  | some e => simp [hv] at h1

theorem withoutAttribute_rejectsOnly (field : String) (inputs : Option StringMap)
    (hcd : Option String) : RejectsOnly (withoutAttribute field inputs hcd) field := by
  intro k v
  by_cases hk : k = field <;> simp [withoutAttribute, rejecting, hk]

theorem withoutAttribute_realisable (field : String) (inputs : Option StringMap)
    (hcd : Option String) : Realisable (withoutAttribute field inputs hcd) := by
  intro k _ s v hget
  by_cases hk : k = field
  · subst hk
    simp [withoutAttribute, ResourceData.Get] at hget
  · simp [withoutAttribute, rejecting, hk]

/-- On a realisable resource data that accepts the outputs and random writes
the handler returns no error: the default it writes for an empty
`has_computed_default` is a string written to a string attribute. -/
theorem read_ok_of_realisable (word : Nat) (d : ResourceData) (hreal : Realisable d)
    (ho : ∀ v, d.validate "outputs" v = none)
    (hr : ∀ v, d.validate "random" v = none) :
    (dataSourceRead word d).1 = [] := by
  by_cases h3 : d.Get "has_computed_default" = Value.str ""
  · rw [read_default_stored word d (ho _) (hr _) h3
      (hreal "has_computed_default" (by decide) "" "default" h3)]
  · rw [read_default_kept word d (ho _) (hr _) h3]

/-- On a realisable resource data the write to `has_computed_default`, when
the handler attempts it, is accepted. -/
theorem default_write_accepted (word : Nat) (d : ResourceData) (hreal : Realisable d) :
    ∀ a ∈ attempts word d, a.key = "has_computed_default" → a.err = none := by
  cases h1 : d.validate "outputs" (d.Get "inputs") with
  | some e =>
    rw [attempts_outputs_rejected word d e h1]
    simp
  | none =>
    cases h2 : d.validate "random" (Value.str (sprintfD (randInt word))) with
    | some e =>
      rw [attempts_random_rejected word d e h1 h2]
      simp
    | none =>
      by_cases h3 : d.Get "has_computed_default" = Value.str ""
      · have h4 := hreal "has_computed_default" (by decide) "" "default" h3
        rw [attempts_default_stored word d h1 h2 h3 h4]
        simp
      · rw [attempts_default_kept word d h1 h2 h3]
        simp

/-- C8, refuted as stated: not every one of the four steps can fail.  A
resource data that rejects writes to `id` alone gets no error from the
handler, since the identifier is set through `d.SetId`, which reports no
error.  Nor can the has_computed_default step fail on a resource data of the
SDK: built without that attribute, the resource data reads it as nil, not as
the empty string, so the handler does not write it and returns no error; and
no realisable resource data that rejects writes to `has_computed_default`
alone makes the handler fail. -/
theorem id_step_cannot_fail :
    RejectsOnly (rejecting "id" "refused" none none) "id" ∧
    (dataSourceRead 0 (rejecting "id" "refused" none none)).1 = [] ∧
    (dataSourceRead 0 (rejecting "id" "refused" none none)).2.Id = "static" ∧
    ¬ EachStepCanFail ∧
    RejectsOnly (withoutAttribute "has_computed_default" none none)
      "has_computed_default" ∧
    (withoutAttribute "has_computed_default" none none).Get "has_computed_default"
      = Value.null ∧
    (dataSourceRead 0 (withoutAttribute "has_computed_default" none none)).1 = [] ∧
    ¬ ∃ (word : Nat) (d : ResourceData),
        Realisable d ∧ RejectsOnly d "has_computed_default" ∧
        HasError (dataSourceRead word d).1 = true := by
  refine ⟨rejecting_rejectsOnly _ _ _ _, by decide, by decide, ?_,
    withoutAttribute_rejectsOnly _ _ _, by decide, by decide, ?_⟩
  · intro h
    obtain ⟨word, d, hr, he⟩ := h "id" (by simp)
    have hok := (read_ok_of_accepts word d
      (accepts_of_rejectsOnly d "id" "outputs" hr (by decide))
      (accepts_of_rejectsOnly d "id" "random" hr (by decide))
      (accepts_of_rejectsOnly d "id" "has_computed_default" hr (by decide))).1
    rw [hok] at he
    simp [hasError_nil] at he
  · rintro ⟨word, d, hreal, hr, he⟩
    have hok := read_ok_of_realisable word d hreal
      (accepts_of_rejectsOnly d "has_computed_default" "outputs" hr (by decide))
      (accepts_of_rejectsOnly d "has_computed_default" "random" hr (by decide))
    rw [hok] at he
    simp [hasError_nil] at he

/-- C8, amended: two of the four steps, the outputs write and the random
write, can fail on their own: for each there is a realisable resource data
that rejects the write of that field alone, and the handler returns an error
on it.  The other two cannot.  On a realisable resource data the write to
`has_computed_default`, made only when the attribute reads as the empty
string, is never rejected, so a resource data that rejects writes to
`has_computed_default` alone gets no diagnostics; and on every resource data
that rejects writes to `id` alone the handler returns no diagnostics and the
identifier is `"static"`, the identifier being set through `d.SetId`. -/
theorem outputs_and_random_steps_can_fail :
    (∀ f ∈ ["outputs", "random"], ∃ (word : Nat) (d : ResourceData),
      Realisable d ∧ RejectsOnly d f ∧ HasError (dataSourceRead word d).1 = true) ∧
    (∀ (word : Nat) (d : ResourceData), Realisable d →
      ∀ a ∈ attempts word d, a.key = "has_computed_default" → a.err = none) ∧
    (∀ (word : Nat) (d : ResourceData), Realisable d →
      RejectsOnly d "has_computed_default" → (dataSourceRead word d).1 = []) ∧
    (∀ (word : Nat) (d : ResourceData), RejectsOnly d "id" →
      (dataSourceRead word d).1 = [] ∧ (dataSourceRead word d).2.Id = "static") := by
  refine ⟨?_, default_write_accepted, ?_, ?_⟩
  · intro f hf
    simp only [List.mem_cons, List.mem_singleton, List.not_mem_nil, or_false] at hf
    rcases hf with rfl | rfl
    · exact ⟨0, withoutAttribute "outputs" none none, withoutAttribute_realisable _ _ _,
        withoutAttribute_rejectsOnly _ _ _, by decide⟩
    · exact ⟨0, withoutAttribute "random" none none, withoutAttribute_realisable _ _ _,
        withoutAttribute_rejectsOnly _ _ _, by decide⟩
  · intro word d hreal hr
    exact read_ok_of_realisable word d hreal
      (accepts_of_rejectsOnly d "has_computed_default" "outputs" hr (by decide))
      (accepts_of_rejectsOnly d "has_computed_default" "random" hr (by decide))
  · intro word d hr
    exact read_ok_of_accepts word d
      (accepts_of_rejectsOnly d "id" "outputs" hr (by decide))
      (accepts_of_rejectsOnly d "id" "random" hr (by decide))
      (accepts_of_rejectsOnly d "id" "has_computed_default" hr (by decide))

/-- C8 amended, at the resource data built without one attribute: without
`outputs` and without `random` the handler fails with the SDK's invalid
address error under its own label; without `has_computed_default`, and with
writes to `id` refused, it returns no diagnostics. -/
theorem outputs_and_random_steps_can_fail_witness :
    (dataSourceRead 0 (withoutAttribute "outputs" none none)).1
      = Errorf ("error setting outputs: " ++ invalidAddress "outputs") ∧
    (dataSourceRead 0 (withoutAttribute "random" none none)).1
      = Errorf ("error setting random int: " ++ invalidAddress "random") ∧
    (dataSourceRead 0 (withoutAttribute "has_computed_default" none none)).1 = [] ∧
    ((dataSourceRead 0 (rejecting "id" "refused" none none)).1 = [] ∧
      (dataSourceRead 0 (rejecting "id" "refused" none none)).2.Id = "static") :=
  ⟨by decide, by decide,
   outputs_and_random_steps_can_fail.2.2.1 0
    (withoutAttribute "has_computed_default" none none)
    (withoutAttribute_realisable _ _ _) (withoutAttribute_rejectsOnly _ _ _),
   outputs_and_random_steps_can_fail.2.2.2 0 (rejecting "id" "refused" none none)
    (rejecting_rejectsOnly _ _ _ _)⟩

theorem label_mentions_own :
    ∀ f ∈ setFields, mentions (errorLabel f) f = true := by
  decide

theorem label_mentions_no_other :
    ∀ f ∈ setFields, ∀ g ∈ fieldNames, g ≠ f → mentions (errorLabel f) g = false := by
  decide

theorem label_ends_in_blank :
    ∀ f ∈ setFields, (errorLabel f).data = (errorLabel f).data.dropLast ++ [' '] := by
  decide

theorem fieldNames_no_blank : ∀ g ∈ fieldNames, ' ' ∉ g.data := by
  decide

/-- A message made of a label and an error text names the label's field, and
names another field only when the error text does. -/
theorem message_mentions (f : String) (hf : f ∈ setFields) (e : String) :
    mentions (errorLabel f ++ e) f = true ∧
    (∀ g ∈ fieldNames, g ≠ f → mentions (errorLabel f ++ e) g = true →
      mentions e g = true) := by
  constructor
  · unfold mentions
    rw [String.data_append]
    exact occursIn_append_right _ _ _ (label_mentions_own f hf)
  · intro g hg hne hm
    unfold mentions at hm
    rw [String.data_append, label_ends_in_blank f hf, List.append_assoc,
      List.singleton_append] at hm
    rcases occursIn_split _ _ _ _ (fieldNames_no_blank g hg) hm with h | h
    · rw [← label_ends_in_blank f hf] at h
      have := label_mentions_no_other f hf g hg hne
      unfold mentions at this
      rw [h] at this
      exact absurd this (by simp)
    · exact h

/-- C9, refuted as stated: when the host rejects the outputs write with the
text `conflicts with random`, the message returned is
`error setting outputs: conflicts with random`, which contains the name of
the field `random` although the write that failed is that of `outputs`. -/
theorem message_names_another_field :
    attempts 0 (rejecting "outputs" "conflicts with random" none none)
      = [⟨"outputs", Value.map [], some "conflicts with random"⟩] ∧
    (dataSourceRead 0 (rejecting "outputs" "conflicts with random" none none)).1
      = [⟨Severity.Error, "error setting outputs: conflicts with random"⟩] ∧
    "random" ∈ fieldNames ∧ "random" ≠ "outputs" ∧
    mentions "error setting outputs: conflicts with random" "random" = true := by
  decide

/-- C9, amended: whenever the handler fails, the last write it attempted is a
write of outputs, random or has_computed_default that the host rejected with
some text `e`, and the one diagnostic returned carries the message made of
that field's label (`error setting outputs: `, `error setting random int: `
or `error setting has_computed_default: `) followed by `e`.  The label
contains the name of the failed field and of no other field; the whole
message contains the name of the failed field, and the name of another field
only when the host's text `e` contains it. -/
theorem read_error_message (word : Nat) (d : ResourceData)
    (herr : HasError (dataSourceRead word d).1 = true) :
    (errorLabel "outputs" = "error setting outputs: " ∧
      errorLabel "random" = "error setting random int: " ∧
      errorLabel "has_computed_default" = "error setting has_computed_default: ") ∧
    ∃ (f : String) (v : Value) (e : String),
      f ∈ setFields ∧
      (attempts word d).getLast? = some ⟨f, v, some e⟩ ∧
      d.validate f v = some e ∧
      (dataSourceRead word d).1 = [⟨Severity.Error, errorLabel f ++ e⟩] ∧
      mentions (errorLabel f) f = true ∧
      (∀ g ∈ fieldNames, g ≠ f → mentions (errorLabel f) g = false) ∧
      mentions (errorLabel f ++ e) f = true ∧
      (∀ g ∈ fieldNames, g ≠ f → mentions (errorLabel f ++ e) g = true →
        mentions e g = true) := by
  refine ⟨⟨rfl, rfl, rfl⟩, ?_⟩
  have fin : ∀ (f : String) (v : Value) (e : String), f ∈ setFields →
      (attempts word d).getLast? = some ⟨f, v, some e⟩ → d.validate f v = some e →
      (dataSourceRead word d).1 = [⟨Severity.Error, errorLabel f ++ e⟩] →
      ∃ (f : String) (v : Value) (e : String),
        f ∈ setFields ∧
        (attempts word d).getLast? = some ⟨f, v, some e⟩ ∧
        d.validate f v = some e ∧
        (dataSourceRead word d).1 = [⟨Severity.Error, errorLabel f ++ e⟩] ∧
        mentions (errorLabel f) f = true ∧
        (∀ g ∈ fieldNames, g ≠ f → mentions (errorLabel f) g = false) ∧
        mentions (errorLabel f ++ e) f = true ∧
        (∀ g ∈ fieldNames, g ≠ f → mentions (errorLabel f ++ e) g = true →
          mentions e g = true) :=
    fun f v e hf hl hv hm =>
      ⟨f, v, e, hf, hl, hv, hm, label_mentions_own f hf, label_mentions_no_other f hf,
        (message_mentions f hf e).1, (message_mentions f hf e).2⟩
  cases h1 : d.validate "outputs" (d.Get "inputs") with
  | some e =>
    refine fin "outputs" (d.Get "inputs") e (by decide) ?_ h1 ?_
    · rw [attempts_outputs_rejected word d e h1]
      rfl
    · rw [read_outputs_rejected word d e h1]
      rfl
  | none =>
    cases h2 : d.validate "random" (Value.str (sprintfD (randInt word))) with
    | some e =>
      refine fin "random" (Value.str (sprintfD (randInt word))) e (by decide) ?_ h2 ?_
      · rw [attempts_random_rejected word d e h1 h2]
        rfl
      · rw [read_random_rejected word d e h1 h2]
        rfl
    | none =>
      by_cases h3 : d.Get "has_computed_default" = Value.str ""
      · cases h4 : d.validate "has_computed_default" (Value.str "default") with
        | some e =>
          refine fin "has_computed_default" (Value.str "default") e (by decide) ?_ h4 ?_
          · rw [attempts_default_rejected word d e h1 h2 h3 h4]
            rfl
          · rw [read_default_rejected word d e h1 h2 h3 h4]
            rfl
        | none =>
          rw [read_default_stored word d h1 h2 h3 h4] at herr
          simp [hasError_nil] at herr
      · rw [read_default_kept word d h1 h2 h3] at herr
        simp [hasError_nil] at herr

/-- C9 amended, on a resource data that rejects the random write with the text
`out of range`: the message is `error setting random int: out of range`. -/
theorem read_error_message_witness :
    (dataSourceRead 0 (rejecting "random" "out of range" none none)).1
      = [⟨Severity.Error, "error setting random int: out of range"⟩] ∧
    ((errorLabel "outputs" = "error setting outputs: " ∧
      errorLabel "random" = "error setting random int: " ∧
      errorLabel "has_computed_default" = "error setting has_computed_default: ") ∧
    ∃ (f : String) (v : Value) (e : String),
      f ∈ setFields ∧
      (attempts 0 (rejecting "random" "out of range" none none)).getLast?
        = some ⟨f, v, some e⟩ ∧
      (rejecting "random" "out of range" none none).validate f v = some e ∧
      (dataSourceRead 0 (rejecting "random" "out of range" none none)).1
        = [⟨Severity.Error, errorLabel f ++ e⟩] ∧
      mentions (errorLabel f) f = true ∧
      (∀ g ∈ fieldNames, g ≠ f → mentions (errorLabel f) g = false) ∧
      mentions (errorLabel f ++ e) f = true ∧
      (∀ g ∈ fieldNames, g ≠ f → mentions (errorLabel f ++ e) g = true →
        mentions e g = true)) :=
  ⟨by decide,
   read_error_message 0 (rejecting "random" "out of range" none none) (by decide)⟩

end NullProvider
